import Mathlib

/-!
Shallow embedding of `src/core/posix-socket.cpp` (katla).

Each operation of `PosixSocket` is modelled as a pure function from the
socket's member state and an OS oracle (the results the kernel would hand
back to each syscall site) to a result, the updated member state, and the
trace of syscalls issued, in order.  Machine integers are modelled as
`Int`/`Nat`; the numeric constants are the Linux values used by the build.
-/

/-- `ProtocolDomain` enum of the source. -/
inductive ProtocolDomain
  | Unix | IPv4 | IPv6 | Packet | Can | Bluetooth | VSock
deriving DecidableEq

/-- The source's `PosixSocket::Type` enum (`Type` is a sort in Lean, hence
the name `SockType`). -/
inductive SockType
  | Stream | Datagram | SequencedPacket | Raw
deriving DecidableEq

/-- `PosixErrorCodes` values used by the source (declared in the header). -/
inductive PosixErrorCodes
  | InvalidDomain | InvalidType | UnixSocketPathTooLong | OperationNotSupported
deriving DecidableEq

/-- The single error-reporting channel: either a `PosixErrorCodes` value via
`make_error_code`, or an OS `errno` translated verbatim via
`std::make_error_code(static_cast<std::errc>(errno))`. -/
inductive SockError
  | posix (c : PosixErrorCodes)
  | os (errno : Nat)
deriving DecidableEq

/-- `PosixSocket::WaitResult` of the source: the decomposed poll event mask. -/
structure WaitResult where
  dataToRead : Bool
  urgentDataToRead : Bool
  writingWillNotBlock : Bool
  readHangup : Bool
  writeHangup : Bool
  error : Bool
  invalid : Bool
deriving DecidableEq

/-- Member state of a `PosixSocket` instance: `_fd` (−1 = not created),
the four frozen configuration fields, and `_url` (`boundUrl`). -/
structure PosixSocket where
  fd : Int
  protocolDomain : ProtocolDomain
  stype : SockType
  frameType : Nat
  nonBlocking : Bool
  url : String
deriving DecidableEq

/-- Modelled from the spec: the class header (not under `src/`) declares
`_fd` with the −1 "not created" sentinel and `_url` default-empty, which is
what the config-only constructor at lines 44–50 leaves them as. -/
def PosixSocket.mkUnbound (pd : ProtocolDomain) (t : SockType) (ft : Nat)
    (nb : Bool) : PosixSocket :=
  { fd := -1, protocolDomain := pd, stype := t, frameType := ft,
    nonBlocking := nb, url := "" }

-- Linux numeric constants, as fixed by the headers the source includes.
def AF_UNIX : Int := 1
def AF_INET : Int := 2
def AF_INET6 : Int := 10
def AF_PACKET : Int := 17
def AF_CAN : Int := 29
def AF_BLUETOOTH : Int := 31
def AF_VSOCK : Int := 40
def SOCK_STREAM : Int := 1
def SOCK_DGRAM : Int := 2
def SOCK_SEQPACKET : Int := 5
def SOCK_RAW : Int := 3
def SOCK_NONBLOCK : Int := 2048
def MSG_DONTWAIT : Nat := 64
def EAGAIN : Nat := 11
def EWOULDBLOCK : Nat := 11
def POLLIN : Nat := 1
def POLLPRI : Nat := 2
def POLLOUT : Nat := 4
def POLLERR : Nat := 8
def POLLHUP : Nat := 16
def POLLNVAL : Nat := 32
def POLLRDHUP : Nat := 8192

/-- 16-bit byte swap (`htons`, x86-64 little-endian build). -/
def htons (x : Nat) : Nat := (x % 256) * 256 + (x % 65536) / 256

/-- `PosixSocket::mapProtocolDomain` (lines 100–112).  The `return -1`
fallthrough of the source is unreachable for the enumerators, which the
exhaustive switch all maps. -/
def mapProtocolDomain : ProtocolDomain → Int
  | .Unix => AF_UNIX
  | .IPv4 => AF_INET
  | .IPv6 => AF_INET6
  | .Packet => AF_PACKET
  | .Can => AF_CAN
  | .Bluetooth => AF_BLUETOOTH
  | .VSock => AF_VSOCK

/-- `PosixSocket::mapType` (lines 114–123); the `return -1` fallthrough is
likewise unreachable for the enumerators. -/
def mapType : SockType → Int
  | .Stream => SOCK_STREAM
  | .Datagram => SOCK_DGRAM
  | .SequencedPacket => SOCK_SEQPACKET
  | .Raw => SOCK_RAW

/-- One issued syscall, with the arguments the claims are about. -/
inductive Syscall
  | socket (domain stype : Int) (protocol : Nat)
  | socketpair (domain stype : Int)
  | ifNametoindex (name : String)
  | osBind (fd : Int)
  | setsockopt (fd : Int)
  | osConnect (fd : Int)
  | osPoll (fd : Int) (events : Nat) (timeoutMs : Int)
  | recvfrom (fd : Int) (len : Nat) (flags : Nat)
  | osWrite (fd : Int) (len : Nat)
  | osSendto (fd : Int) (len : Nat)
  | osClose (fd : Int)
deriving DecidableEq

/-- OS oracle: the outcome the kernel returns at each syscall site
reached during one operation.  `Except Nat α` is `errno` on error. -/
structure OsEnv where
  socketRes : Except Nat Int
  socketpairRes : Except Nat (Int × Int)
  nameToIndex : String → Nat
  nameErrno : Nat
  bindRes : Except Nat Unit
  setsockoptRes : Except Nat Unit
  connectRes : Except Nat Unit
  pollRevents : Except Nat Nat
  recvfromRet : Int
  recvfromErrno : Nat
  sendtoRet : Int
  sendtoErrno : Nat
  writeRet : Int
  writeErrno : Nat
  closeRes : Except Nat Unit

/-- The socket-type argument `create` passes to `socket` after ORing in
`SOCK_NONBLOCK` when requested (the OR equals addition: bit 0x800 is
disjoint from the mapped type values 1,2,3,5). -/
def createTypeArg (s : PosixSocket) : Int :=
  if s.nonBlocking then mapType s.stype + SOCK_NONBLOCK else mapType s.stype

/-- The protocol argument of the `socket` call (lines 347–351): a local
`frameType` variable initialised to 0, byte-swapped for Raw sockets —
always 0; the member `_frameType` is not consulted. -/
def createProtoArg (s : PosixSocket) : Nat :=
  if s.stype == SockType.Raw then htons 0 else 0

/-- The `socket(2)` call event issued by `create`. -/
def createEvent (s : PosixSocket) : Syscall :=
  .socket (mapProtocolDomain s.protocolDomain) (createTypeArg s) (createProtoArg s)

/-- `PosixSocket::create` (lines 331–360): validates the domain and type
mappings (no syscall on failure), then `_fd = socket(...)`; on failure
`_fd` holds the returned −1 and the `errno` is translated. -/
def PosixSocket.create (s : PosixSocket) (os : OsEnv) :
    Except SockError Unit × PosixSocket × List Syscall :=
  let domain := mapProtocolDomain s.protocolDomain
  if domain == -1 then
    (.error (.posix .InvalidDomain), s, [])
  else
    let mappedType := mapType s.stype
    if mappedType == -1 then
      (.error (.posix .InvalidType), s, [])
    else
      match os.socketRes with
      | .ok f => (.ok (), { s with fd := f }, [createEvent s])
      | .error e => (.error (.os e), { s with fd := -1 }, [createEvent s])

/-- `PosixSocket::bind` (lines 125–184).  The Packet/Raw branch resolves
the interface name, builds the `sockaddr_ll`, OS-binds, records `_url`,
then joins the promiscuous membership; the Unix branch validates the path
length after `create()` and OS-binds; everything else is unsupported. -/
def PosixSocket.bind (s : PosixSocket) (url : String) (os : OsEnv) :
    Except SockError Unit × PosixSocket × List Syscall :=
  if s.protocolDomain == ProtocolDomain.Packet && s.stype == SockType.Raw then
    match s.create os with
    | (.error e, s1, tr) => (.error e, s1, tr)
    | (.ok _, s1, tr) =>
      let tr := tr ++ [.ifNametoindex url]
      if os.nameToIndex url == 0 then
        (.error (.os os.nameErrno), s1, tr)
      else
        let tr := tr ++ [.osBind s1.fd]
        match os.bindRes with
        | .error e => (.error (.os e), s1, tr)
        | .ok _ =>
          let s2 := { s1 with url := url }
          let tr := tr ++ [.setsockopt s1.fd]
          match os.setsockoptRes with
          | .error e => (.error (.os e), s2, tr)
          | .ok _ => (.ok (), s2, tr)
  else if s.protocolDomain == ProtocolDomain.Unix then
    match s.create os with
    | (.error e, s1, tr) => (.error e, s1, tr)
    | (.ok _, s1, tr) =>
      if 108 ≤ url.utf8ByteSize then
        (.error (.posix .UnixSocketPathTooLong), s1, tr)
      else
        let tr := tr ++ [.osBind s1.fd]
        match os.bindRes with
        | .error e => (.error (.os e), s1, tr)
        | .ok _ => (.ok (), s1, tr)
  else
    (.error (.posix .OperationNotSupported), s, [])

/-- `PosixSocket::connect` (lines 186–212): Unix domain only. -/
def PosixSocket.connect (s : PosixSocket) (url : String) (os : OsEnv) :
    Except SockError Unit × PosixSocket × List Syscall :=
  if s.protocolDomain == ProtocolDomain.Unix then
    match s.create os with
    | (.error e, s1, tr) => (.error e, s1, tr)
    | (.ok _, s1, tr) =>
      if 108 ≤ url.utf8ByteSize then
        (.error (.posix .UnixSocketPathTooLong), s1, tr)
      else
        let tr := tr ++ [.osConnect s1.fd]
        match os.connectRes with
        | .error e => (.error (.os e), s1, tr)
        | .ok _ => (.ok (), s1, tr)
  else
    (.error (.posix .OperationNotSupported), s, [])

/-- The events mask `poll` registers (lines 216–225). -/
def pollEvents (writePending : Bool) : Nat :=
  if writePending then POLLIN ||| POLLPRI ||| POLLRDHUP ||| POLLOUT
  else POLLIN ||| POLLPRI ||| POLLRDHUP

/-- `PosixSocket::poll` (lines 214–242).  The oracle yields the `revents`
mask the kernel filled in (`.error e` models the call returning −1); the
source never looks at the ready-descriptor count, only at −1 and at
`revents`, which the kernel leaves 0 when nothing is ready. -/
def PosixSocket.poll (s : PosixSocket) (timeoutMs : Int) (writePending : Bool)
    (os : OsEnv) : Except SockError WaitResult × List Syscall :=
  let tr := [Syscall.osPoll s.fd (pollEvents writePending) timeoutMs]
  match os.pollRevents with
  | .error e => (.error (.os e), tr)
  | .ok r =>
    (.ok { dataToRead := (r &&& POLLIN != 0) || (r &&& POLLPRI != 0)
           urgentDataToRead := r &&& POLLPRI != 0
           writingWillNotBlock := r &&& POLLOUT != 0
           readHangup := r &&& POLLRDHUP != 0
           writeHangup := r &&& POLLHUP != 0
           error := r &&& POLLERR != 0
           invalid := r &&& POLLNVAL != 0 }, tr)

/-- `PosixSocket::receiveFrom` (lines 249–268): `recvfrom` with
`MSG_DONTWAIT` when non-blocking; a −1 return with `EAGAIN`/`EWOULDBLOCK`
in non-blocking mode is rewritten to a 0-byte success. -/
def PosixSocket.receiveFrom (s : PosixSocket) (bufLen : Nat) (os : OsEnv) :
    Except SockError Int × List Syscall :=
  let flags := if s.nonBlocking then MSG_DONTWAIT else 0
  let tr := [Syscall.recvfrom s.fd bufLen flags]
  if os.recvfromRet == -1 then
    if s.nonBlocking &&
        (os.recvfromErrno == EAGAIN || os.recvfromErrno == EWOULDBLOCK) then
      (.ok 0, tr)
    else
      (.error (.os os.recvfromErrno), tr)
  else
    (.ok os.recvfromRet, tr)

/-- `PosixSocket::read` (lines 244–247): delegates to `receiveFrom`. -/
def PosixSocket.read (s : PosixSocket) (bufLen : Nat) (os : OsEnv) :
    Except SockError Int × List Syscall :=
  s.receiveFrom bufLen os

/-- `PosixSocket::write` (lines 270–279). -/
def PosixSocket.write (s : PosixSocket) (bufLen : Nat) (os : OsEnv) :
    Except SockError Int × List Syscall :=
  let tr := [Syscall.osWrite s.fd bufLen]
  if os.writeRet == -1 then (.error (.os os.writeErrno), tr)
  else (.ok os.writeRet, tr)

/-- `PosixSocket::sendTo` (lines 281–313).  Faithful to the source: the
`return nbytes;` at line 305 precedes the `nbytes == -1` check at lines
307–309, so the errno-translation branch is unreachable and a failed
`sendto` (returning −1) is handed back as the success value −1. -/
def PosixSocket.sendTo (s : PosixSocket) (url : String) (bufLen : Nat)
    (os : OsEnv) : Except SockError Int × PosixSocket × List Syscall :=
  if s.protocolDomain == ProtocolDomain.Packet && s.stype == SockType.Raw then
    match s.create os with
    | (.error e, s1, tr) => (.error e, s1, tr)
    | (.ok _, s1, tr) =>
      let tr := tr ++ [.ifNametoindex url]
      if os.nameToIndex url == 0 then
        (.error (.os os.nameErrno), s1, tr)
      else
        (.ok os.sendtoRet, s1, tr ++ [.osSendto s1.fd bufLen])
  else
    (.error (.posix .OperationNotSupported), s, [])

/-- `PosixSocket::close` (lines 315–329). -/
def PosixSocket.close (s : PosixSocket) (os : OsEnv) :
    Except SockError Unit × PosixSocket × List Syscall :=
  if s.fd == -1 then
    (.ok (), s, [])
  else
    match os.closeRes with
    | .error e => (.error (.os e), s, [.osClose s.fd])
    | .ok _ => (.ok (), { s with fd := -1 }, [.osClose s.fd])

/-- Whether an `Except Nat α` oracle outcome is a success. -/
def exOk {α : Type} : Except Nat α → Bool
  | .ok _ => true
  | .error _ => false

/-- Whether a result is the `UnixSocketPathTooLong` failure. -/
def isPathTooLong {α : Type} : Except SockError α → Bool
  | .error (.posix .UnixSocketPathTooLong) => true
  | _ => false

/-- Whether a trace contains an OS `bind(2)` call. -/
def hasOsBindCall (tr : List Syscall) : Bool :=
  tr.any fun c => match c with | .osBind _ => true | _ => false

/-- Whether a trace contains an OS `connect(2)` call. -/
def hasOsConnectCall (tr : List Syscall) : Bool :=
  tr.any fun c => match c with | .osConnect _ => true | _ => false

/-- Whether a trace starts with a `socket(2)` creation call. -/
def startsWithSocketCall : List Syscall → Bool
  | .socket _ _ _ :: _ => true
  | _ => false

/-- The `_fd` value `create` leaves behind: the new descriptor on success,
−1 (the failed `socket` return value, assigned to `_fd`) on failure. -/
def createdFd (os : OsEnv) : Int :=
  match os.socketRes with
  | .ok f => f
  | .error _ => -1

/-- The condition under which `bind` assigns `_url`: only the Packet/Raw
branch, after creation, resolution and the OS bind all succeeded. -/
def bindSetsUrl (s : PosixSocket) (url : String) (os : OsEnv) : Bool :=
  s.protocolDomain == ProtocolDomain.Packet && s.stype == SockType.Raw &&
    exOk os.socketRes && os.nameToIndex url != 0 && exOk os.bindRes

/-- The domain/type combinations `bind` supports. -/
def bindSupported (s : PosixSocket) : Bool :=
  (s.protocolDomain == ProtocolDomain.Packet && s.stype == SockType.Raw) ||
    s.protocolDomain == ProtocolDomain.Unix

/-- `PosixSocket::createUnnamedPair` (lines 68–98). -/
def PosixSocket.createUnnamedPair (pd : ProtocolDomain) (t : SockType)
    (ft : Nat) (nb : Bool) (os : OsEnv) :
    Except SockError (PosixSocket × PosixSocket) × List Syscall :=
  let mappedDomain := mapProtocolDomain pd
  if mappedDomain == -1 then
    (.error (.posix .InvalidDomain), [])
  else
    let mappedType := mapType t
    if mappedType == -1 then
      (.error (.posix .InvalidType), [])
    else
      let mappedType := if nb then mappedType + SOCK_NONBLOCK else mappedType
      match os.socketpairRes with
      | .error e => (.error (.os e), [.socketpair mappedDomain mappedType])
      | .ok (a, b) =>
        (.ok ({ fd := a, protocolDomain := pd, stype := t, frameType := ft,
                nonBlocking := nb, url := "" },
              { fd := b, protocolDomain := pd, stype := t, frameType := ft,
                nonBlocking := nb, url := "" }),
         [.socketpair mappedDomain mappedType])

/-- An oracle in which every syscall succeeds. -/
def osAllOk : OsEnv :=
  { socketRes := .ok 3, socketpairRes := .ok (3, 4),
    nameToIndex := fun _ => 2, nameErrno := 19,
    bindRes := .ok (), setsockoptRes := .ok (), connectRes := .ok (),
    pollRevents := .ok 0, recvfromRet := 5, recvfromErrno := 0,
    sendtoRet := 5, sendtoErrno := 0, writeRet := 5, writeErrno := 0,
    closeRes := .ok () }

/-- A fresh Unix-domain stream socket. -/
def sUnix : PosixSocket := PosixSocket.mkUnbound .Unix .Stream 0 false

/-- A Unix-domain socket already holding descriptor 5. -/
def sUnix5 : PosixSocket := { sUnix with fd := 5 }

/-- A fresh Packet/Raw socket with frame type 0x88B5. -/
def sPacketRaw : PosixSocket := PosixSocket.mkUnbound .Packet .Raw 35001 false

/-- An IPv4 stream socket (bind and connect do not support it). -/
def sIPv4 : PosixSocket := PosixSocket.mkUnbound .IPv4 .Stream 0 false

/-- A socket holding descriptor 3, for the close scenarios. -/
def sFd3 : PosixSocket := { sUnix with fd := 3 }

/-- A 108-byte path, the smallest length the Unix branches reject. -/
def u108 : String := String.mk (List.replicate 108 'a')

/-- Oracle whose `sendto` fails with `EACCES` (returns −1, errno 13). -/
def osSendFail : OsEnv := { osAllOk with sendtoRet := -1, sendtoErrno := 13 }

/-- Oracle whose `close` fails with `EBADF` (errno 9). -/
def osCloseFail : OsEnv := { osAllOk with closeRes := .error 9 }

/-- Oracle whose `recvfrom` reports would-block (−1, `EAGAIN`). -/
def osWouldBlock : OsEnv := { osAllOk with recvfromRet := -1, recvfromErrno := 11 }

/-- Oracle whose `recvfrom` fails with `ECONNRESET` (errno 104). -/
def osRecvFail : OsEnv := { osAllOk with recvfromRet := -1, recvfromErrno := 104 }

/-- Oracle whose readiness wait fails with `EINTR` (errno 4). -/
def osPollFail : OsEnv := { osAllOk with pollRevents := .error 4 }

/-- Oracle whose readiness wait reports `POLLPRI` only. -/
def osPollPri : OsEnv := { osAllOk with pollRevents := .ok 2 }

/-- A non-blocking Unix-domain stream socket holding descriptor 3. -/
def sNonBlock : PosixSocket := { sFd3 with nonBlocking := true }

/-- Helper: on this platform both mappings are total, so `create` reduces
to the `socket(2)` call, whose result lands in `_fd`. -/
theorem create_eq (s : PosixSocket) (os : OsEnv) :
    s.create os =
      match os.socketRes with
      | .ok f => (.ok (), { s with fd := f }, [createEvent s])
      | .error e => (.error (.os e), { s with fd := -1 }, [createEvent s]) := by
  have h1 : (mapProtocolDomain s.protocolDomain == -1) = false := by
    cases s.protocolDomain <;> rfl
  have h2 : (mapType s.stype == -1) = false := by
    cases s.stype <;> rfl
  simp only [PosixSocket.create, h1, h2, Bool.false_eq_true, if_false]

/-- Claim C1, code bug witness: for a Packet/Raw socket whose `sendto`
syscall fails (returns −1, errno `EACCES`), `sendTo` returns the raw −1 as
a success value instead of the translated OS error — the `return nbytes;`
at line 305 precedes the error check, leaving it unreachable.  On syscall
success the byte count is returned as claimed. -/
theorem sendTo_swallows_send_failure :
    (PosixSocket.sendTo sPacketRaw "eth0" 5 osSendFail).1 = .ok (-1) ∧
    (PosixSocket.sendTo sPacketRaw "eth0" 5 osSendFail).1 ≠ .error (.os 13) ∧
    (PosixSocket.sendTo sPacketRaw "eth0" 5 osAllOk).1 = .ok 5 :=
  ⟨rfl, fun hc => Except.noConfusion hc, rfl⟩

/-- Claim C2 counterexample: a Unix socket already holding descriptor 5 is
re-bound; `bind` unconditionally calls `create`, which issues a fresh
`socket(2)` call and overwrites the stored descriptor with the new one. -/
theorem bind_recreates_descriptor_cex :
    sUnix5.fd = 5 ∧
    (PosixSocket.bind sUnix5 "a" osAllOk).1 = .ok () ∧
    (PosixSocket.bind sUnix5 "a" osAllOk).2.1.fd = 3 ∧
    startsWithSocketCall (PosixSocket.bind sUnix5 "a" osAllOk).2.2 = true :=
  ⟨rfl, rfl, rfl, rfl⟩

/-- Claim C2 (amended): creation is not lazy — every supported `bind`,
`connect` or `sendTo` invocation calls `create`, which always issues a
`socket(2)` call and sets `_fd` to its result, whatever `_fd` held
before; re-binding therefore recreates (overwrites) the descriptor. -/
theorem bind_always_creates (s : PosixSocket) (url : String) (n : Nat)
    (os : OsEnv) (h : bindSupported s = true) :
    startsWithSocketCall (PosixSocket.bind s url os).2.2 = true ∧
    (PosixSocket.bind s url os).2.1.fd = createdFd os ∧
    (s.protocolDomain = ProtocolDomain.Unix →
      startsWithSocketCall (PosixSocket.connect s url os).2.2 = true ∧
      (PosixSocket.connect s url os).2.1.fd = createdFd os) ∧
    (s.protocolDomain = ProtocolDomain.Packet →
      startsWithSocketCall (PosixSocket.sendTo s url n os).2.2 = true ∧
      (PosixSocket.sendTo s url n os).2.1.fd = createdFd os) := by
  obtain ⟨fd, pd, st, ft, nb, u⟩ := s
  have hsup : (pd = ProtocolDomain.Packet ∧ st = SockType.Raw) ∨
      pd = ProtocolDomain.Unix := by
    revert h; cases pd <;> cases st <;> simp [bindSupported]
  rcases hsup with ⟨hpd, hst⟩ | hpd
  · subst hpd; subst hst
    refine ⟨?_, ?_, ?_, ?_⟩
    · cases hos : os.socketRes with
      | error e => simp [PosixSocket.bind, create_eq, hos, startsWithSocketCall,
          createEvent]
      | ok f =>
        simp only [PosixSocket.bind, create_eq, hos]
        simp only [show ((ProtocolDomain.Packet == ProtocolDomain.Packet) &&
          (SockType.Raw == SockType.Raw)) = true from rfl, if_true]
        split
        · simp [startsWithSocketCall, createEvent]
        · cases os.bindRes <;> cases os.setsockoptRes <;>
            simp [startsWithSocketCall, createEvent]
    · cases hos : os.socketRes with
      | error e => simp [PosixSocket.bind, create_eq, hos, createdFd]
      | ok f =>
        simp only [PosixSocket.bind, create_eq, hos]
        simp only [show ((ProtocolDomain.Packet == ProtocolDomain.Packet) &&
          (SockType.Raw == SockType.Raw)) = true from rfl, if_true]
        split
        · simp [createdFd, hos]
        · cases os.bindRes <;> cases os.setsockoptRes <;> simp [createdFd, hos]
    · intro hc; exact absurd hc (fun hc => ProtocolDomain.noConfusion hc)
    · intro _
      constructor
      · cases hos : os.socketRes with
        | error e => simp [PosixSocket.sendTo, create_eq, hos,
            startsWithSocketCall, createEvent]
        | ok f =>
          simp only [PosixSocket.sendTo, create_eq, hos]
          simp only [show ((ProtocolDomain.Packet == ProtocolDomain.Packet) &&
            (SockType.Raw == SockType.Raw)) = true from rfl, if_true]
          split <;> simp [startsWithSocketCall, createEvent]
      · cases hos : os.socketRes with
        | error e => simp [PosixSocket.sendTo, create_eq, hos, createdFd]
        | ok f =>
          simp only [PosixSocket.sendTo, create_eq, hos]
          simp only [show ((ProtocolDomain.Packet == ProtocolDomain.Packet) &&
            (SockType.Raw == SockType.Raw)) = true from rfl, if_true]
          split <;> simp [createdFd, hos]
  · subst hpd
    have hcond : ((ProtocolDomain.Unix == ProtocolDomain.Packet) &&
        (st == SockType.Raw)) = false := rfl
    refine ⟨?_, ?_, ?_, ?_⟩
    · cases hos : os.socketRes with
      | error e => simp [PosixSocket.bind, hcond, create_eq, hos,
          startsWithSocketCall, createEvent]
      | ok f =>
        simp only [PosixSocket.bind, hcond, Bool.false_eq_true, if_false,
          create_eq, hos]
        simp only [show (ProtocolDomain.Unix == ProtocolDomain.Unix) = true
          from rfl, if_true]
        split
        · simp [startsWithSocketCall, createEvent]
        · cases os.bindRes <;> simp [startsWithSocketCall, createEvent]
    · cases hos : os.socketRes with
      | error e => simp [PosixSocket.bind, hcond, create_eq, hos, createdFd]
      | ok f =>
        simp only [PosixSocket.bind, hcond, Bool.false_eq_true, if_false,
          create_eq, hos]
        simp only [show (ProtocolDomain.Unix == ProtocolDomain.Unix) = true
          from rfl, if_true]
        split
        · simp [createdFd, hos]
        · cases os.bindRes <;> simp [createdFd, hos]
    · intro _
      constructor
      · cases hos : os.socketRes with
        | error e => simp [PosixSocket.connect, create_eq, hos,
            startsWithSocketCall, createEvent]
        | ok f =>
          simp only [PosixSocket.connect, create_eq, hos]
          simp only [show (ProtocolDomain.Unix == ProtocolDomain.Unix) = true
            from rfl, if_true]
          split
          · simp [startsWithSocketCall, createEvent]
          · cases os.connectRes <;> simp [startsWithSocketCall, createEvent]
      · cases hos : os.socketRes with
        | error e => simp [PosixSocket.connect, create_eq, hos, createdFd]
        | ok f =>
          simp only [PosixSocket.connect, create_eq, hos]
          simp only [show (ProtocolDomain.Unix == ProtocolDomain.Unix) = true
            from rfl, if_true]
          split
          · simp [createdFd, hos]
          · cases os.connectRes <;> simp [createdFd, hos]
    · intro hc; exact absurd hc (fun hc => ProtocolDomain.noConfusion hc)

/-- Claim C2 (amended) witness: the already-created socket `sUnix5`
(descriptor 5) is re-bound under an oracle whose `socket(2)` returns 3. -/
theorem bind_always_creates_witness :
    bindSupported sUnix5 = true ∧
    startsWithSocketCall (PosixSocket.bind sUnix5 "a" osAllOk).2.2 = true ∧
    (PosixSocket.bind sUnix5 "a" osAllOk).2.1.fd = createdFd osAllOk := by
  have hmain := bind_always_creates sUnix5 "a" 0 osAllOk (by decide)
  exact ⟨by decide, hmain.1, hmain.2.1⟩

/-- Claim C3 counterexample: a fully successful Unix-domain `bind` leaves
`boundUrl` empty — the source assigns `_url` only in the Packet/Raw
branch (line 151), never in the Unix branch. -/
theorem unix_bind_leaves_boundUrl_empty_cex :
    (PosixSocket.bind sUnix "a" osAllOk).1 = .ok () ∧
    (PosixSocket.bind sUnix "a" osAllOk).2.1.url = "" ∧
    (PosixSocket.bind sUnix "a" osAllOk).2.1.url ≠ "a" :=
  ⟨rfl, rfl, by decide⟩

/-- Claim C3 (amended): `boundUrl` is assigned (to the interface name)
exactly when a Packet/Raw `bind` gets past the OS `bind` call — creation,
interface resolution and the OS bind all succeeded; in every other case,
including every Unix-domain `bind`, it is left unchanged (so still empty
on a fresh socket), and in particular a Packet/Raw `bind` whose
interface-name resolution fails leaves it unset. -/
theorem boundUrl_set_only_by_packet_bind (s : PosixSocket) (url : String)
    (os : OsEnv) :
    (PosixSocket.bind s url os).2.1.url =
      (if bindSetsUrl s url os then url else s.url) := by
  obtain ⟨fd, pd, st, ft, nb, u⟩ := s
  by_cases hPR : (pd = ProtocolDomain.Packet ∧ st = SockType.Raw)
  · obtain ⟨hpd, hst⟩ := hPR; subst hpd; subst hst
    cases hos : os.socketRes with
    | error e =>
      simp [PosixSocket.bind, create_eq, hos, bindSetsUrl, exOk]
    | ok f =>
      simp only [PosixSocket.bind, create_eq, hos]
      simp only [show ((ProtocolDomain.Packet == ProtocolDomain.Packet) &&
        (SockType.Raw == SockType.Raw)) = true from rfl, if_true]
      by_cases hidx : (os.nameToIndex url == 0) = true
      · have hidx' : os.nameToIndex url = 0 := by simpa using hidx
        simp [hidx', bindSetsUrl, exOk, hos]
      · have hidx' : ¬os.nameToIndex url = 0 := by simpa using hidx
        cases hbr : os.bindRes with
        | error e =>
          simp [hidx', hbr, bindSetsUrl, exOk, hos]
        | ok _ =>
          cases os.setsockoptRes <;>
            simp [hidx', hbr, bindSetsUrl, exOk, hos]
  · have hcond : ((pd == ProtocolDomain.Packet) && (st == SockType.Raw)) =
        false := by
      revert hPR; cases pd <;> cases st <;> decide
    have hset : bindSetsUrl ⟨fd, pd, st, ft, nb, u⟩ url os = false := by
      simp [bindSetsUrl, hcond]
    by_cases hu : (pd == ProtocolDomain.Unix) = true
    · cases hos : os.socketRes with
      | error e =>
        simp [PosixSocket.bind, hcond, hu, create_eq, hos, hset]
      | ok f =>
        simp only [PosixSocket.bind, hcond, Bool.false_eq_true, if_false, hu,
          if_true, create_eq, hos, hset]
        split
        · rfl
        · cases os.bindRes <;> rfl
    · simp [PosixSocket.bind, hcond, hu, hset]

/-- Claim C4 counterexample: a Unix `bind` of a 108-byte path does return
`UnixSocketPathTooLong`, but only after `create()` has issued the
`socket(2)` syscall and overwritten the descriptor (−1 before, 3 after),
so the failure is not detected before any syscall and the socket's state
does not stay unchanged. -/
theorem unix_toolong_bind_still_creates_cex :
    (PosixSocket.bind sUnix u108 osAllOk).1 =
      .error (.posix .UnixSocketPathTooLong) ∧
    (PosixSocket.bind sUnix u108 osAllOk).2.2 = [createEvent sUnix] ∧
    sUnix.fd = -1 ∧
    (PosixSocket.bind sUnix u108 osAllOk).2.1.fd = 3 :=
  ⟨rfl, rfl, rfl, rfl⟩

/-- Claim C4 (amended): for a Unix-domain socket and a url of 108 bytes or
more, `bind` and `connect` return `UnixSocketPathTooLong` before the OS
bind/connect call, but after `create()` has run: exactly one syscall — the
socket creation — is issued, and the descriptor is set to its result; no
other field changes. -/
theorem unix_toolong_after_create (s : PosixSocket) (url : String)
    (os : OsEnv) (f : Int) (hd : s.protocolDomain = ProtocolDomain.Unix)
    (hlen : 108 ≤ url.utf8ByteSize) (hs : os.socketRes = .ok f) :
    PosixSocket.bind s url os =
      (.error (.posix .UnixSocketPathTooLong), { s with fd := f },
        [createEvent s]) ∧
    PosixSocket.connect s url os =
      (.error (.posix .UnixSocketPathTooLong), { s with fd := f },
        [createEvent s]) := by
  obtain ⟨fd, pd, st, ft, nb, u⟩ := s
  cases hd
  constructor
  · simp [PosixSocket.bind, create_eq, hs, hlen]
  · simp [PosixSocket.connect, create_eq, hs, hlen]

/-- Claim C4 (amended) witness: the 108-byte path `u108` on a fresh Unix
socket under an all-succeeding oracle. -/
theorem unix_toolong_after_create_witness :
    108 ≤ u108.utf8ByteSize ∧
    PosixSocket.bind sUnix u108 osAllOk =
      (.error (.posix .UnixSocketPathTooLong), { sUnix with fd := 3 },
        [createEvent sUnix]) ∧
    PosixSocket.connect sUnix u108 osAllOk =
      (.error (.posix .UnixSocketPathTooLong), { sUnix with fd := 3 },
        [createEvent sUnix]) := by
  have hmain := unix_toolong_after_create sUnix u108 osAllOk 3 rfl
    (by decide) rfl
  exact ⟨by decide, hmain.1, hmain.2⟩

/-- Claim C5: for a Unix-domain socket, `bind` and `connect` report
`UnixSocketPathTooLong` exactly when the descriptor creation succeeded and
the url is 108 bytes or longer (when creation fails, its error
propagates instead), and they issue the OS `bind`/`connect` syscall
exactly when creation succeeded and the url is at most 107 bytes — in
particular a url of 108 bytes or more never reaches the OS bind/connect
primitive, and a url of at most 107 bytes always passes the length
validation. -/
theorem unix_path_validation (s : PosixSocket) (url : String) (os : OsEnv)
    (hd : s.protocolDomain = ProtocolDomain.Unix) :
    isPathTooLong (PosixSocket.bind s url os).1 =
      (exOk os.socketRes && decide (108 ≤ url.utf8ByteSize)) ∧
    isPathTooLong (PosixSocket.connect s url os).1 =
      (exOk os.socketRes && decide (108 ≤ url.utf8ByteSize)) ∧
    hasOsBindCall (PosixSocket.bind s url os).2.2 =
      (exOk os.socketRes && !decide (108 ≤ url.utf8ByteSize)) ∧
    hasOsConnectCall (PosixSocket.connect s url os).2.2 =
      (exOk os.socketRes && !decide (108 ≤ url.utf8ByteSize)) := by
  obtain ⟨fd, pd, st, ft, nb, u⟩ := s
  cases hd
  by_cases hlen : 108 ≤ url.utf8ByteSize
  · cases hos : os.socketRes with
    | error e =>
      refine ⟨?_, ?_, ?_, ?_⟩ <;>
        simp [PosixSocket.bind, PosixSocket.connect, create_eq, hos, hlen,
          isPathTooLong, exOk, hasOsBindCall, hasOsConnectCall, createEvent]
    | ok f =>
      refine ⟨?_, ?_, ?_, ?_⟩ <;>
        simp [PosixSocket.bind, PosixSocket.connect, create_eq, hos, hlen,
          isPathTooLong, exOk, hasOsBindCall, hasOsConnectCall, createEvent]
  · cases hos : os.socketRes with
    | error e =>
      refine ⟨?_, ?_, ?_, ?_⟩ <;>
        simp [PosixSocket.bind, PosixSocket.connect, create_eq, hos, hlen,
          isPathTooLong, exOk, hasOsBindCall, hasOsConnectCall, createEvent]
    | ok f =>
      refine ⟨?_, ?_, ?_, ?_⟩
      · cases hbr : os.bindRes <;>
          simp [PosixSocket.bind, create_eq, hos, hbr, hlen, isPathTooLong,
            exOk]
      · cases hcr : os.connectRes <;>
          simp [PosixSocket.connect, create_eq, hos, hcr, hlen, isPathTooLong,
            exOk]
      · cases hbr : os.bindRes <;>
          simp [PosixSocket.bind, create_eq, hos, hbr, hlen, hasOsBindCall,
            exOk, createEvent]
      · cases hcr : os.connectRes <;>
          simp [PosixSocket.connect, create_eq, hos, hcr, hlen,
            hasOsConnectCall, exOk, createEvent]

/-- Claim C5 witness: the 108-byte path is rejected without an OS bind; a
1-byte path passes validation and reaches the OS bind/connect call. -/
theorem unix_path_validation_witness :
    isPathTooLong (PosixSocket.bind sUnix u108 osAllOk).1 = true ∧
    hasOsBindCall (PosixSocket.bind sUnix u108 osAllOk).2.2 = false ∧
    isPathTooLong (PosixSocket.bind sUnix "b" osAllOk).1 = false ∧
    hasOsConnectCall (PosixSocket.connect sUnix "b" osAllOk).2.2 = true := by
  have h1 := unix_path_validation sUnix u108 osAllOk rfl
  have h2 := unix_path_validation sUnix "b" osAllOk rfl
  exact ⟨h1.1.trans (by decide), h1.2.2.1.trans (by decide),
    h2.1.trans (by decide), h2.2.2.2.trans (by decide)⟩

/-- Claim C6: `close` succeeds with no OS call when no descriptor is held;
when the OS close succeeds the result is success and the descriptor is
cleared to −1, so an immediately following `close` (under any oracle)
succeeds again with no OS call; when the OS close fails the translated
error is returned and the state is left entirely unchanged, so a retry is
possible. -/
theorem close_idempotent_spec (s : PosixSocket) (os os2 : OsEnv) (e : Nat) :
    (s.fd = -1 → PosixSocket.close s os = (.ok (), s, [])) ∧
    (os.closeRes = .ok () →
      (PosixSocket.close s os).1 = .ok () ∧
      (PosixSocket.close s os).2.1.fd = -1 ∧
      PosixSocket.close (PosixSocket.close s os).2.1 os2 =
        (.ok (), (PosixSocket.close s os).2.1, [])) ∧
    (os.closeRes = .error e → s.fd ≠ -1 →
      PosixSocket.close s os = (.error (.os e), s, [.osClose s.fd])) := by
  by_cases hfd : s.fd = -1
  · refine ⟨fun _ => by simp [PosixSocket.close, hfd], fun _ => ?_,
      fun _ hne => absurd hfd hne⟩
    refine ⟨by simp [PosixSocket.close, hfd], by simp [PosixSocket.close, hfd],
      by simp [PosixSocket.close, hfd]⟩
  · have hfd' : (s.fd == -1) = false := by
      simpa using hfd
    refine ⟨fun hc => absurd hc hfd, fun hok => ?_, fun herr _ => ?_⟩
    · have h1 : PosixSocket.close s os =
          (.ok (), { s with fd := -1 }, [.osClose s.fd]) := by
        simp [PosixSocket.close, hfd', hok]
      rw [h1]
      exact ⟨rfl, rfl, by simp [PosixSocket.close]⟩
    · simp [PosixSocket.close, hfd', herr]

/-- Claim C6 witness: `sFd3` holds descriptor 3; closing succeeds and
clears it, the second close is a success no-op, and a failing close under
`osCloseFail` (errno 9) leaves the descriptor in place. -/
theorem close_idempotent_spec_witness :
    (PosixSocket.close sFd3 osAllOk).1 = .ok () ∧
    PosixSocket.close (PosixSocket.close sFd3 osAllOk).2.1 osAllOk =
      (.ok (), (PosixSocket.close sFd3 osAllOk).2.1, []) ∧
    PosixSocket.close sFd3 osCloseFail = (.error (.os 9), sFd3, [.osClose 3]) ∧
    PosixSocket.close sUnix osAllOk = (.ok (), sUnix, []) := by
  refine ⟨((close_idempotent_spec sFd3 osAllOk osAllOk 9).2.1 rfl).1,
    ((close_idempotent_spec sFd3 osAllOk osAllOk 9).2.1 rfl).2.2, ?_, ?_⟩
  · exact (close_idempotent_spec sFd3 osCloseFail osAllOk 9).2.2 rfl
      (by decide)
  · exact (close_idempotent_spec sUnix osAllOk osAllOk 9).1 rfl

/-- Claim C7: `read` delegates to `receiveFrom`; when non-blocking is set
and the receive call reports would-block (−1 with `EAGAIN`/`EWOULDBLOCK`),
the result is a 0-byte success; any other failing receive returns the
translated errno; a non-failing receive returns its byte count. -/
theorem receive_wouldblock_spec (s : PosixSocket) (n : Nat) (os : OsEnv) :
    PosixSocket.read s n os = PosixSocket.receiveFrom s n os ∧
    (s.nonBlocking = true → os.recvfromRet = -1 →
      (os.recvfromErrno = EAGAIN ∨ os.recvfromErrno = EWOULDBLOCK) →
      (PosixSocket.receiveFrom s n os).1 = .ok 0) ∧
    (s.nonBlocking = true → os.recvfromRet = -1 →
      os.recvfromErrno ≠ EAGAIN → os.recvfromErrno ≠ EWOULDBLOCK →
      (PosixSocket.receiveFrom s n os).1 = .error (.os os.recvfromErrno)) ∧
    (s.nonBlocking = false → os.recvfromRet = -1 →
      (PosixSocket.receiveFrom s n os).1 = .error (.os os.recvfromErrno)) ∧
    (os.recvfromRet ≠ -1 →
      (PosixSocket.receiveFrom s n os).1 = .ok os.recvfromRet) := by
  refine ⟨rfl, ?_, ?_, ?_, ?_⟩
  · intro hnb hret herrno
    rcases herrno with h | h <;>
      simp [PosixSocket.receiveFrom, hnb, hret, h, EAGAIN, EWOULDBLOCK]
  · intro hnb hret h1 h2
    simp [PosixSocket.receiveFrom, hnb, hret, h1, h2]
  · intro hnb hret
    simp [PosixSocket.receiveFrom, hnb, hret]
  · intro hret
    have hret' : (os.recvfromRet == -1) = false := by simpa using hret
    simp [PosixSocket.receiveFrom, hret']

/-- Claim C7 witness: a non-blocking socket under a would-block oracle
reads 0 bytes successfully; a blocking socket under a failing oracle gets
the translated errno 104; a successful receive returns its count. -/
theorem receive_wouldblock_spec_witness :
    (PosixSocket.receiveFrom sNonBlock 16 osWouldBlock).1 = .ok 0 ∧
    (PosixSocket.receiveFrom sFd3 16 osRecvFail).1 = .error (.os 104) ∧
    (PosixSocket.receiveFrom sFd3 16 osAllOk).1 = .ok 5 := by
  refine ⟨(receive_wouldblock_spec sNonBlock 16 osWouldBlock).2.1 rfl rfl
      (Or.inl rfl), ?_, ?_⟩
  · exact (receive_wouldblock_spec sFd3 16 osRecvFail).2.2.2.1 rfl rfl
  · exact (receive_wouldblock_spec sFd3 16 osAllOk).2.2.2.2 (by decide)

/-- Claim C8: `poll` returns a translated OS error exactly when the
readiness-wait syscall itself fails; a syscall success with nothing ready
(`revents = 0`, the kernel's zero-ready-descriptors outcome) yields
success with all seven flags false; and in general the returned event
mask is decomposed bitwise into the seven named flags. -/
theorem poll_spec (s : PosixSocket) (t : Int) (wp : Bool) (os : OsEnv)
    (e r : Nat) :
    (os.pollRevents = .error e →
      (PosixSocket.poll s t wp os).1 = .error (.os e)) ∧
    (os.pollRevents = .ok 0 →
      (PosixSocket.poll s t wp os).1 =
        .ok ⟨false, false, false, false, false, false, false⟩) ∧
    (os.pollRevents = .ok r →
      (PosixSocket.poll s t wp os).1 =
        .ok { dataToRead := (r &&& POLLIN != 0) || (r &&& POLLPRI != 0),
              urgentDataToRead := r &&& POLLPRI != 0,
              writingWillNotBlock := r &&& POLLOUT != 0,
              readHangup := r &&& POLLRDHUP != 0,
              writeHangup := r &&& POLLHUP != 0,
              error := r &&& POLLERR != 0,
              invalid := r &&& POLLNVAL != 0 }) := by
  refine ⟨fun h => ?_, fun h => ?_, fun h => ?_⟩
  · simp [PosixSocket.poll, h]
  · simp [PosixSocket.poll, h]
  · simp [PosixSocket.poll, h]

/-- Claim C8 witness: a failing wait yields the translated errno 4; an
all-quiet wait yields all flags false; mask 8195 (`POLLIN`, `POLLPRI`,
`POLLRDHUP`) sets exactly the matching flags. -/
theorem poll_spec_witness :
    (PosixSocket.poll sFd3 0 false osPollFail).1 = .error (.os 4) ∧
    (PosixSocket.poll sFd3 0 false osAllOk).1 =
      .ok ⟨false, false, false, false, false, false, false⟩ ∧
    (PosixSocket.poll sFd3 0 false
        { osAllOk with pollRevents := .ok 8195 }).1 =
      .ok ⟨true, true, false, true, false, false, false⟩ := by
  refine ⟨(poll_spec sFd3 0 false osPollFail 4 0).1 rfl,
    (poll_spec sFd3 0 false osAllOk 4 0).2.1 rfl, ?_⟩
  exact (poll_spec sFd3 0 false { osAllOk with pollRevents := .ok 8195 } 4
    8195).2.2 rfl

/-- Claim C9: a domain without an OS mapping makes `create` and
`createUnnamedPair` report `InvalidDomain`, a mapped domain with an
unmapped type makes them report `InvalidType` (domain checked first), and
a domain/type combination unsupported by `bind` or `connect` makes them
report `OperationNotSupported` — in all these cases with an empty syscall
trace.  (On this platform both mappings are total, so the first two
conditions never arise; the last is exercised e.g. by IPv4.) -/
theorem invalid_config_no_syscall (pd : ProtocolDomain) (t : SockType)
    (ft : Nat) (nb : Bool) (s : PosixSocket) (url : String) (os : OsEnv) :
    (mapProtocolDomain pd = -1 →
      PosixSocket.createUnnamedPair pd t ft nb os =
        (.error (.posix .InvalidDomain), [])) ∧
    (mapProtocolDomain pd ≠ -1 → mapType t = -1 →
      PosixSocket.createUnnamedPair pd t ft nb os =
        (.error (.posix .InvalidType), [])) ∧
    (mapProtocolDomain s.protocolDomain = -1 →
      s.create os = (.error (.posix .InvalidDomain), s, [])) ∧
    (mapProtocolDomain s.protocolDomain ≠ -1 → mapType s.stype = -1 →
      s.create os = (.error (.posix .InvalidType), s, [])) ∧
    (bindSupported s = false →
      PosixSocket.bind s url os =
        (.error (.posix .OperationNotSupported), s, [])) ∧
    (s.protocolDomain ≠ ProtocolDomain.Unix →
      PosixSocket.connect s url os =
        (.error (.posix .OperationNotSupported), s, [])) := by
  refine ⟨fun h => absurd h (by cases pd <;> decide),
    fun _ h => absurd h (by cases t <;> decide),
    fun h => absurd h (by cases s.protocolDomain <;> decide),
    fun _ h => absurd h (by cases s.stype <;> decide),
    fun h => ?_, fun h => ?_⟩
  · obtain ⟨fd, spd, st, sft, snb, u⟩ := s
    have : ((spd == ProtocolDomain.Packet) && (st == SockType.Raw)) = false ∧
        (spd == ProtocolDomain.Unix) = false := by
      revert h; cases spd <;> cases st <;> simp [bindSupported]
    simp [PosixSocket.bind, this.1, this.2]
  · have h' : (s.protocolDomain == ProtocolDomain.Unix) = false := by
      simpa using h
    simp [PosixSocket.connect, h']

/-- Claim C9 witness: an IPv4/Stream socket is supported by neither `bind`
nor `connect`; both report `OperationNotSupported` with no syscall. -/
theorem invalid_config_no_syscall_witness :
    bindSupported sIPv4 = false ∧
    PosixSocket.bind sIPv4 "x" osAllOk =
      (.error (.posix .OperationNotSupported), sIPv4, []) ∧
    PosixSocket.connect sIPv4 "x" osAllOk =
      (.error (.posix .OperationNotSupported), sIPv4, []) := by
  have h := invalid_config_no_syscall ProtocolDomain.IPv4 SockType.Stream 0
    false sIPv4 "x" osAllOk
  exact ⟨by decide, h.2.2.2.2.1 (by decide), h.2.2.2.2.2 (by decide)⟩

/-- Claim C10: in every successful `poll` result, the urgent-data flag
implies the data-readable flag, because `dataToRead` is computed from the
`POLLIN` and `POLLPRI` bits together and `urgentDataToRead` from the
`POLLPRI` bit alone. -/
theorem urgent_implies_data (s : PosixSocket) (t : Int) (wp : Bool)
    (os : OsEnv) (w : WaitResult)
    (hw : (PosixSocket.poll s t wp os).1 = .ok w)
    (hu : w.urgentDataToRead = true) :
    w.dataToRead = true := by
  cases h : os.pollRevents with
  | error e => simp [PosixSocket.poll, h] at hw
  | ok r =>
    simp only [PosixSocket.poll, h, Except.ok.injEq] at hw
    subst hw
    simp only [WaitResult.urgentDataToRead] at hu
    simp [WaitResult.dataToRead, hu]

/-- Claim C10 witness: with event mask `POLLPRI` only, `poll` returns a
successful result whose urgent flag is set, and the theorem yields the
data-readable flag. -/
theorem urgent_implies_data_witness :
    (PosixSocket.poll sFd3 0 false osPollPri).1 =
      .ok ⟨true, true, false, false, false, false, false⟩ ∧
    WaitResult.dataToRead ⟨true, true, false, false, false, false, false⟩ =
      true :=
  ⟨rfl, urgent_implies_data sFd3 0 false osPollPri
    ⟨true, true, false, false, false, false, false⟩ rfl rfl⟩
